import Mathlib

/-!
A shallow embedding of the skill-guardrails security scanner
(`src/agent-factory/skill-guardrails/src`): the data model (`models/skill.py`,
`models/report.py`), the four analysis levels (`levels/l1_static.py`,
`levels/l2_semantic.py`, `levels/l3_dynamic.py`, `levels/l4_trust.py`) and the
orchestrator with its risk aggregation (`scanner.py`).

Conventions of the embedding:
- Python floats carrying severities and scores become rationals.
- Python dicts parsed from frontmatter become association lists of strings
  (the frontmatter parser only ever produces string values).
- Regex rule tables, the semantic oracle, the Docker sandbox and the
  filesystem are external inputs of the program; they enter as explicit
  parameters (a match function per compiled rule, an `Except`-valued oracle
  response, an outcome per executed fragment, a flag for an existing
  signature file).
- Python string operations (`strip`, `split`, `lower`, `upper`, `in`,
  `startswith`) are re-implemented character-wise so that every definition
  evaluates inside the kernel.
-/

namespace SkillGuardrails

/-! ## Character-level string helpers (Python `str` operations) -/

/-- Python whitespace for `str.strip` and the regex class `\s`. -/
def isPySpace (c : Char) : Bool :=
  c == ' ' || c == '\t' || c == '\n' || c == '\r' || c == '\x0b' || c == '\x0c'

/-- Whether the first list is a prefix of the second. -/
def startsWithChars : List Char → List Char → Bool
  | [], _ => true
  | _ :: _, [] => false
  | p :: ps, c :: cs => p == c && startsWithChars ps cs

/-- All suffixes of a list, longest first. -/
def suffixes : List Char → List (List Char)
  | [] => [[]]
  | c :: rest => (c :: rest) :: suffixes rest

/-- Python `s.startswith(pre)`. -/
def pyStartsWith (s pre : String) : Bool :=
  startsWithChars pre.toList s.toList

/-- Python `pat in hay` (substring containment). -/
def strContains (hay pat : String) : Bool :=
  (suffixes hay.toList).any (fun suf => startsWithChars pat.toList suf)

/-- Python `s.strip()`. -/
def pyStrip (s : String) : String :=
  (((s.toList.dropWhile isPySpace).reverse.dropWhile isPySpace).reverse).asString

/-- Python `s.split("\n")`. -/
def splitOnNl : List Char → List (List Char)
  | [] => [[]]
  | c :: rest =>
    match splitOnNl rest, c == '\n' with
    | r, true => [] :: r
    | [], false => [[c]]
    | cur :: r, false => (c :: cur) :: r

/-- Python `s.split("\n")`, on strings. -/
def pySplitLines (s : String) : List String :=
  (splitOnNl s.toList).map List.asString

/-- Python `s.lower()`. -/
def pyLower (s : String) : String :=
  (s.toList.map Char.toLower).asString

/-- Python `s.upper()`. -/
def pyUpper (s : String) : String :=
  (s.toList.map Char.toUpper).asString

/-- Python `s[:n]` (truncation to the first `n` characters). -/
def pyTake (s : String) (n : Nat) : String :=
  (s.toList.take n).asString

/-- First-match lookup in an association list: the embedding of access to a
Python dict with string keys. -/
def assocLookup {α : Type} (table : List (String × α)) (key : String) : Option α :=
  (table.find? (fun kv => kv.1 == key)).map (fun kv => kv.2)

/-! ## Data model (`models/skill.py`) -/

/-- A single security finding (`Finding` dataclass). -/
structure Finding where
  level : String
  name : String
  description : String
  severity : ℚ
  lineNumber : Option Nat := none
  codeSnippet : Option String := none
  mitigation : Option String := none
deriving DecidableEq

/-- A fenced code block extracted from the manifest body. -/
structure CodeBlock where
  language : String
  code : String
deriving DecidableEq

/-- A loaded skill (`Skill` class): identity, raw content, parsed frontmatter
metadata (string keys to string values, as `_parse_frontmatter` produces),
validity flag and extracted code blocks. `folderName` is `skill_path.name`. -/
structure Skill where
  folderName : String
  name : String
  content : String
  metadata : List (String × String)
  isValid : Bool
  codeBlocks : List CodeBlock
deriving DecidableEq

/-- `skill.metadata.get(key)`. -/
def Skill.metaGet (s : Skill) (key : String) : Option String :=
  assocLookup s.metadata key

/-- `Skill.risk_level`: the declared risk, defaulting to "unknown". -/
def Skill.riskLevel (s : Skill) : String :=
  (s.metaGet "risk").getD "unknown"

/-- `Skill.is_offensive`. -/
def Skill.isOffensive (s : Skill) : Bool :=
  s.riskLevel == "offensive"

/-- `Skill.has_disclaimer`: case-insensitive disclaimer substring check. -/
def Skill.hasDisclaimer (s : Skill) : Bool :=
  strContains (pyUpper s.content) "AUTHORIZED USE ONLY"

/-- `Skill.source`: source attribution, defaulting to "unknown". -/
def Skill.source (s : Skill) : String :=
  (s.metaGet "source").getD "unknown"

/-- `Skill.permissions`: the declared permission tokens, comma-separated in
the frontmatter value, stripped, empties dropped. -/
def Skill.permissions (s : Skill) : List String :=
  match s.metaGet "permissions" with
  | none => []
  | some perms =>
    (((perms.toList.splitOn ',').map (fun l => pyStrip l.asString)).filter
      (fun p => !(p == "")))

/-- Result of scanning one skill (`SkillResult` dataclass), with the
dataclass defaults. -/
structure SkillResult where
  name : String
  path : String
  isValid : Bool
  riskScore : ℚ := 0
  classification : String := "low"
  findings : List Finding := []
  topFinding : Option String := none
  error : Option String := none
  metadata : List (String × String) := []
deriving DecidableEq

/-! ## Level 1: static analysis (`levels/l1_static.py`) -/

/-- One allowlist entry of the pattern config. -/
structure AllowEntry where
  patterns : List String
  context : String
  requiresDisclaimer : Bool := false

/-- One compiled rule: name, severity, description, mitigation, and the
compiled regex abstracted as its match function, returning the character
spans `(start, stop)` of every match in document order (`finditer`). -/
structure CompiledRule where
  name : String
  severity : ℚ
  description : String
  mitigation : String
  findMatches : String → List (Nat × Nat)

/-- The compiled pattern table: the four fixed severity buckets plus the
allowlist (`StaticAnalyzer._compile_patterns` and the `allowlist` key). -/
structure RuleTable where
  critical : List CompiledRule := []
  high : List CompiledRule := []
  medium : List CompiledRule := []
  low : List CompiledRule := []
  allowlist : List AllowEntry := []

/-- `StaticAnalyzer._is_allowed`: whether a pattern name is allowlisted for
this skill's context. -/
def isAllowed (rt : RuleTable) (patternName : String) (skill : Skill) : Bool :=
  rt.allowlist.any (fun entry =>
    entry.patterns.contains patternName &&
      ((entry.context == "offensive" && skill.isOffensive &&
          (skill.hasDisclaimer || !entry.requiresDisclaimer)) ||
        (entry.context == "defensive" &&
          (skill.riskLevel == "safe" || skill.riskLevel == "critical"))))

/-- `content[:pos].count('\n') + 1`: line number of a match start. -/
def lineNumberAt (content : String) (pos : Nat) : Nat :=
  (content.toList.take pos).count '\n' + 1

/-- `content[a:b]` as Python slices it (clamped char span). -/
def sliceChars (content : String) (a b : Nat) : String :=
  ((content.toList.drop a).take (b - a)).asString

/-- Findings of one compiled rule over the full content
(`StaticAnalyzer._detect_patterns`, inner loops): every match becomes a
Finding unless the rule is allowlisted for this skill. -/
def ruleFindings (rt : RuleTable) (skill : Skill) (rule : CompiledRule) : List Finding :=
  (rule.findMatches skill.content).filterMap (fun m =>
    if isAllowed rt rule.name skill then none
    else
      some { level := "L1", name := rule.name, description := rule.description,
             severity := rule.severity,
             lineNumber := some (lineNumberAt skill.content m.1),
             codeSnippet := some (pyTake (pyStrip (sliceChars skill.content
               (m.1 - 50) (min skill.content.length (m.2 + 50)))) 200),
             mitigation := some rule.mitigation })

/-- `StaticAnalyzer._detect_patterns`: buckets in fixed order
critical, high, medium, low. -/
def detectPatterns (rt : RuleTable) (skill : Skill) : List Finding :=
  (rt.critical ++ rt.high ++ rt.medium ++ rt.low).flatMap (ruleFindings rt skill)

/-- The regex `rm\s+-rf\s+/` anchored at the head of a character list. -/
def destructiveAt (l : List Char) : Bool :=
  startsWithChars [ 'r', 'm' ] l &&
  (match l.drop 2 with
   | c :: rest =>
     isPySpace c &&
     (let l2 := rest.dropWhile isPySpace
      startsWithChars [ '-', 'r', 'f' ] l2 &&
      (match l2.drop 3 with
       | c2 :: rest2 => isPySpace c2 && startsWithChars [ '/' ] (rest2.dropWhile isPySpace)
       | [] => false))
   | [] => false)

/-- The regex `__import__\s*\(` anchored at the head of a character list. -/
def dynImportAt (l : List Char) : Bool :=
  startsWithChars ('_' :: '_' :: 'i' :: 'm' :: 'p' :: 'o' :: 'r' :: 't' :: '_' :: '_' :: []) l &&
  startsWithChars [ '(' ] ((l.drop 10).dropWhile isPySpace)

/-- `re.search` of an anchored matcher: does any suffix match. -/
def searchAnywhere (p : List Char → Bool) (s : String) : Bool :=
  (suffixes s.toList).any p

/-- `StaticAnalyzer._analyze_code_blocks`: fixed heuristics over each code
block by declared language. -/
def analyzeCodeBlocks (skill : Skill) : List Finding :=
  skill.codeBlocks.flatMap (fun block =>
    (if [ "bash", "sh", "shell", "zsh" ].contains block.language &&
        searchAnywhere destructiveAt block.code then
      [ { level := "L1", name := "destructive_shell",
          description := "Potentially destructive shell command (rm -rf /)",
          severity := mkRat 95 100, codeSnippet := some (pyTake block.code 100),
          mitigation := some "Remove or add safety guards" } ]
    else []) ++
    (if [ "python", "py" ].contains block.language &&
        searchAnywhere dynImportAt block.code then
      [ { level := "L1", name := "dynamic_import",
          description := "Dynamic import pattern detected",
          severity := mkRat 50 100, codeSnippet := some (pyTake block.code 100),
          mitigation := some "Use explicit imports when possible" } ]
    else []))

/-- Python `repr`-style rendering of an optional metadata value inside an
f-string (`None` when absent). -/
def showOptVal : Option String → String
  | none => "None"
  | some v => v

/-- `StaticAnalyzer._check_metadata`: required fields, folder-name match,
risk label, source attribution. -/
def checkMetadata (skill : Skill) : List Finding :=
  (if (skill.metaGet "name").isNone then
    [ { level := "L1", name := "missing_name",
        description := "Missing required metadata field: name", severity := mkRat 30 100,
        mitigation := some "Add 'name' to frontmatter" } ]
  else []) ++
  (if (skill.metaGet "description").isNone then
    [ { level := "L1", name := "missing_description",
        description := "Missing required metadata field: description", severity := mkRat 30 100,
        mitigation := some "Add 'description' to frontmatter" } ]
  else []) ++
  (if !(skill.metaGet "name" == some skill.folderName) then
    [ { level := "L1", name := "name_mismatch",
        description := "Name '" ++ showOptVal (skill.metaGet "name") ++
          "' doesn't match folder '" ++ skill.folderName ++ "'",
        severity := mkRat 20 100,
        mitigation := some "Ensure 'name' in frontmatter matches folder name" } ]
  else []) ++
  (match skill.metaGet "risk" with
   | none =>
     [ { level := "L1", name := "missing_risk",
         description := "Missing 'risk' classification label", severity := mkRat 35 100,
         mitigation := some "Add 'risk' field with value: none, safe, critical, or offensive" } ]
   | some r =>
     if [ "none", "safe", "critical", "offensive" ].contains r then []
     else
       [ { level := "L1", name := "invalid_risk",
           description := "Invalid risk level: " ++ r, severity := mkRat 40 100,
           mitigation := some "Use valid risk level: none, safe, critical, or offensive" } ]) ++
  (if (skill.metaGet "source").isNone then
    [ { level := "L1", name := "missing_source",
        description := "Missing source attribution", severity := mkRat 15 100,
        mitigation := some "Add 'source' field with URL or 'self' if original" } ]
  else [])

/-- Stable insertion of a finding into a list sorted by descending severity:
the inserted element goes after strictly more severe elements and before the
first element that is not more severe. -/
def insertDesc (f : Finding) : List Finding → List Finding
  | [] => [ f ]
  | g :: rest => if f.severity < g.severity then g :: insertDesc f rest else f :: g :: rest

/-- `findings.sort(key=severity, reverse=True)`: the stable descending sort
Python performs before `analyze` returns. -/
def sortFindings : List Finding → List Finding
  | [] => []
  | f :: rest => insertDesc f (sortFindings rest)

/-- `StaticAnalyzer.analyze`: metadata validation, pattern detection over the
full content, code-block heuristics, the disclaimer check for offensive
skills, then the stable sort by descending severity. -/
def StaticAnalyzer.analyze (rt : RuleTable) (skill : Skill) : List Finding :=
  sortFindings
    (checkMetadata skill ++ detectPatterns rt skill ++ analyzeCodeBlocks skill ++
      (if skill.isOffensive && !skill.hasDisclaimer then
        [ { level := "L1", name := "missing_disclaimer",
            description := "Offensive skill missing 'AUTHORIZED USE ONLY' disclaimer",
            severity := mkRat 90 100,
            mitigation := some "Add required security disclaimer at the top of SKILL.md" } ]
      else []))

/-! ## Level 2: semantic analysis (`levels/l2_semantic.py`) -/

/-- One entry of the oracle's `findings` array, each key optional
(`item.get(...)` with defaults in `_convert_to_findings`). -/
structure OracleFindingItem where
  type : Option String := none
  description : Option String := none
  severity : Option ℚ := none
  evidence : Option String := none
  recommendation : Option String := none

/-- A parsed oracle analysis (the dict `_parse_openai_response` returns):
either an error entry, or the analysis fields, each optional. -/
structure OracleAnalysis where
  error : Option String := none
  findings : List OracleFindingItem := []
  riskScore : Option ℚ := none
  summary : Option String := none

/-- `SemanticAnalyzer._convert_to_findings`: each oracle finding becomes a
Finding with the oracle-reported severity (default 0.5), plus an overall
`high_risk_assessment` Finding when the reported risk score is at least 0.6. -/
def convertToFindings (analysis : OracleAnalysis) : List Finding :=
  match analysis.error with
  | some e =>
    [ { level := "L2", name := "parse_error", description := e, severity := mkRat 10 100 } ]
  | none =>
    (analysis.findings.map (fun item =>
      { level := "L2", name := item.type.getD "unknown",
        description := item.description.getD "",
        severity := item.severity.getD (mkRat 50 100),
        codeSnippet := some (pyTake (item.evidence.getD "") 200),
        mitigation := some (item.recommendation.getD "") })) ++
    (if mkRat 6 10 ≤ analysis.riskScore.getD 0 then
      [ { level := "L2", name := "high_risk_assessment",
          description := analysis.summary.getD "High risk skill detected",
          severity := analysis.riskScore.getD 0 } ]
    else [])

/-- `SemanticAnalyzer.analyze`: when the API is not configured a single
zero-severity informational Finding; otherwise the oracle round trip, whose
outcome enters as an `Except` — any exception out of the call is caught and
converted to the 0.10-severity `analysis_error` Finding. -/
def SemanticAnalyzer.analyze (configured : Bool)
    (oracle : Except String OracleAnalysis) : List Finding :=
  if !configured then
    [ { level := "L2", name := "gemini_not_configured",
        description := "Gemini API not configured - skipping semantic analysis",
        severity := 0, mitigation := some "Set GEMINI_API_URL and GEMINI_API_KEY in .env" } ]
  else
    match oracle with
    | .ok analysis => convertToFindings analysis
    | .error e =>
      [ { level := "L2", name := "analysis_error",
          description := "Semantic analysis failed: " ++ e, severity := mkRat 10 100,
          mitigation := some "Check Gemini API configuration" } ]

/-! ## Level 3: dynamic analysis (`levels/l3_dynamic.py`) -/

/-- `SandboxConfig` dataclass (fields the analysis logic reads; image and
resource limits are forwarded to Docker verbatim). -/
structure SandboxConfig where
  enabled : Bool := true
  image : String := "python:3.11-slim"
  memoryLimit : String := "256m"
  cpuLimit : String := "0.5"
  timeout : Nat := 30
  networkDisabled : Bool := true

/-- Outcome of one sandboxed execution (`subprocess.run` completing, raising
`TimeoutExpired`, or raising any other exception). -/
inductive SandboxOutcome where
  | completed (exitCode : Int) (stdout stderr : String)
  | timedOut
  | errored (msg : String)
deriving DecidableEq

/-- The fixed stderr substring table of
`DynamicAnalyzer._analyze_execution_result`. -/
def suspiciousPatterns : List (String × String × ℚ) :=
  [ ("permission denied", "permission_denied", mkRat 40 100),
    ("network unreachable", "network_attempt", mkRat 70 100),
    ("connection refused", "network_attempt", mkRat 60 100),
    ("curl:", "external_request", mkRat 65 100),
    ("wget:", "external_request", mkRat 65 100),
    ("socket.error", "socket_usage", mkRat 55 100),
    ("subprocess", "subprocess_call", mkRat 50 100) ]

/-- `DynamicAnalyzer._analyze_execution_result`: stderr substrings each map
to a fixed finding, independently; an exit code outside 0 and 1 adds an
`abnormal_exit` finding. -/
def analyzeExecutionResult (exitCode : Int) (stderr : String) (blockIndex : Nat) : List Finding :=
  let stderrL := pyLower stderr
  (suspiciousPatterns.flatMap (fun pns =>
    if strContains stderrL pns.1 then
      [ { level := "L3", name := pns.2.1,
          description := "Suspicious activity detected in block " ++
            toString blockIndex ++ ": " ++ pns.1,
          severity := pns.2.2, codeSnippet := some (pyTake stderrL 200) } ]
    else [])) ++
  (if exitCode != 0 && exitCode != 1 then
    [ { level := "L3", name := "abnormal_exit",
        description := "Code block " ++ toString blockIndex ++ " exited with code " ++
          toString exitCode,
        severity := mkRat 30 100 } ]
  else [])

/-- `DynamicAnalyzer._run_in_sandbox` for one block, its sandbox outcome
given: a completed run is inspected, a timeout yields the fixed
0.60-severity finding, any other exception yields the 0.10-severity
`sandbox_error` finding (and, in every case, the temporary artifact is
removed in the `finally` block, which produces no finding). -/
def runInSandbox (timeoutSecs : Nat) (outcome : SandboxOutcome) (blockIndex : Nat) : List Finding :=
  match outcome with
  | .completed code _ stderr => analyzeExecutionResult code stderr blockIndex
  | .timedOut =>
    [ { level := "L3", name := "execution_timeout",
        description := "Code block " ++ toString blockIndex ++ " exceeded timeout (" ++
          toString timeoutSecs ++ "s)",
        severity := mkRat 60 100,
        mitigation := some "Review code for infinite loops or excessive computation" } ]
  | .errored e =>
    [ { level := "L3", name := "sandbox_error",
        description := "Sandbox execution error: " ++ e, severity := mkRat 10 100 } ]

/-- A line of code that is neither blank nor a `#` comment
(`l.strip() and not l.strip().startswith('#')`). -/
def nontrivialLine (l : String) : Bool :=
  !(pyStrip l == "") && !(pyStartsWith (pyStrip l) "#")

/-- `DynamicAnalyzer._extract_testable_code`: python and shell blocks with at
least one non-comment line and more than 10 stripped characters, the
language lowercased, capped at the first 5 blocks. -/
def extractTestableCode (skill : Skill) : List CodeBlock :=
  (((skill.codeBlocks.map (fun b => CodeBlock.mk (pyLower b.language) b.code)).filter
    (fun b =>
      [ "python", "py", "bash", "sh", "shell" ].contains b.language &&
      ((pySplitLines (pyStrip b.code)).filter nontrivialLine).length > 0 &&
      (pyStrip b.code).length > 10))).take 5

/-- `DynamicAnalyzer.analyze`: early informational return when the sandbox is
disabled, Docker is unavailable, or no block is testable; otherwise every
testable block is executed in order, each contributing its findings
(`outcomes i` is the sandbox outcome of block `i`). -/
def DynamicAnalyzer.analyze (cfg : SandboxConfig) (dockerAvailable : Bool)
    (outcomes : Nat → SandboxOutcome) (skill : Skill) : List Finding :=
  if !cfg.enabled then
    [ { level := "L3", name := "sandbox_disabled",
        description := "Sandbox execution disabled", severity := 0 } ]
  else if !dockerAvailable then
    [ { level := "L3", name := "docker_unavailable",
        description := "Docker not available - skipping dynamic analysis",
        severity := mkRat 5 100, mitigation := some "Install Docker to enable sandbox execution" } ]
  else
    let blocks := extractTestableCode skill
    if blocks.isEmpty then
      [ { level := "L3", name := "no_testable_code",
          description := "No testable code blocks found", severity := 0 } ]
    else
      blocks.enum.flatMap (fun ib => runInSandbox cfg.timeout (outcomes ib.1) ib.1)

/-! ## Level 4: trust verification (`levels/l4_trust.py`) -/

/-- One trusted-authors registry entry, with the `get` defaults of
`_verify_author`. -/
structure AuthorInfo where
  reputation : ℚ := mkRat 50 100
  verified : Bool := false

/-- `TrustConfig` dataclass (the audit-log path is I/O only). -/
structure TrustConfig where
  requireSignature : Bool := false
  trustedAuthors : List (String × AuthorInfo) := []

/-- The fixed trusted repository domain list of `_verify_source`. -/
def trustedDomains : List String :=
  [ "github.com/anthropics", "github.com/google", "github.com/microsoft",
    "github.com/openai" ]

/-- `TrustVerifier._verify_source`: unattributed, self-attributed and
URL-form sources each yield one finding; any other source string falls
through the `if`/`elif` chain and yields none. -/
def verifySource (skill : Skill) : List Finding :=
  let source := skill.source
  if source == "unknown" || source == "" then
    [ { level := "L4", name := "unknown_source",
        description := "Skill has no source attribution", severity := mkRat 40 100,
        mitigation := some "Add 'source' field with URL or 'self' if original work" } ]
  else if source == "self" then
    [ { level := "L4", name := "self_attributed",
        description := "Skill is self-attributed (original work)", severity := mkRat 10 100 } ]
  else if pyStartsWith source "http" then
    if trustedDomains.any (fun d => strContains source d) then
      [ { level := "L4", name := "trusted_source",
          description := "Source from trusted repository: " ++ pyTake source 50,
          severity := 0 } ]
    else
      [ { level := "L4", name := "external_source",
          description := "Source from external repository: " ++ pyTake source 50,
          severity := mkRat 20 100 } ]
  else []

/-- `TrustVerifier._verify_signature` (runs only under the
`require_signature` policy): the existence of the co-located signature file
enters as a flag; verification itself is an unimplemented placeholder. -/
def verifySignature (sigFileExists : Bool) : List Finding :=
  if !sigFileExists then
    [ { level := "L4", name := "missing_signature",
        description := "No signature file found (SKILL.md.sig)", severity := mkRat 30 100,
        mitigation := some "Sign skill with: gpg --sign --armor SKILL.md" } ]
  else
    [ { level := "L4", name := "signature_found",
        description := "Signature file exists (verification not implemented)",
        severity := mkRat 5 100 } ]

/-- `TrustVerifier._verify_author`: registry lookup with reputation tiers,
falling back to the declared trust level for unknown authors. -/
def verifyAuthor (cfg : TrustConfig) (skill : Skill) : List Finding :=
  let author := (skill.metaGet "author").getD "unknown"
  let trustLevel := (skill.metaGet "trust_level").getD "community"
  match assocLookup cfg.trustedAuthors author with
  | some info =>
    if info.verified && mkRat 8 10 ≤ info.reputation then
      [ { level := "L4", name := "trusted_author",
          description := "Author '" ++ author ++ "' is verified (reputation: " ++
            toString info.reputation ++ ")",
          severity := 0 } ]
    else if mkRat 5 10 ≤ info.reputation then
      [ { level := "L4", name := "known_author",
          description := "Author '" ++ author ++ "' is known (reputation: " ++
            toString info.reputation ++ ")",
          severity := mkRat 10 100 } ]
    else
      [ { level := "L4", name := "low_reputation",
          description := "Author '" ++ author ++ "' has low reputation (" ++
            toString info.reputation ++ ")",
          severity := mkRat 40 100 } ]
  | none =>
    if trustLevel == "official" then
      [ { level := "L4", name := "official_skill",
          description := "Skill marked as official", severity := 0 } ]
    else if trustLevel == "verified" then
      [ { level := "L4", name := "verified_skill",
          description := "Skill marked as verified", severity := mkRat 5 100 } ]
    else
      [ { level := "L4", name := "community_skill",
          description := "Community-contributed skill (not individually verified)",
          severity := mkRat 15 100 } ]

/-- `TrustVerifier.verify`: source check, conditional signature check, author
check. The audit-trail append that follows is write-only I/O: it never
changes the returned findings, and a failure of the write is swallowed. -/
def TrustVerifier.verify (cfg : TrustConfig) (sigFileExists : Bool)
    (skill : Skill) : List Finding :=
  verifySource skill ++
  (if cfg.requireSignature then verifySignature sigFileExists else []) ++
  verifyAuthor cfg skill

/-! ## Risk aggregation and orchestration (`scanner.py`) -/

/-- The thresholds config (`thresholds.yaml`): the four weights, the
permission score table, the source-trust score table and the classification
minimums, as `_calculate_risk_score`, `_get_permission_score`,
`_get_source_trust_score` and `_classify_risk` read them. -/
structure ThresholdsConfig where
  wPatternSeverity : ℚ
  wPermissionScope : ℚ
  wSourceTrust : ℚ
  wCommunityReports : ℚ
  permissions : List (String × ℚ) := []
  sourceTrust : List (String × ℚ) := []
  criticalMin : ℚ
  highMin : ℚ
  mediumMin : ℚ

/-- `max([f.severity for f in findings], default=0)`: the severity list is
built first, then maximised, the default 0 taken only when it is empty. -/
def maxSeverity (findings : List Finding) : ℚ :=
  match findings.map Finding.severity with
  | [] => 0
  | s :: rest => rest.foldl max s

/-- The fixed risk-level fallback table inside `_get_permission_score`. -/
def riskScoresTable : List (String × ℚ) :=
  [ ("none", 0), ("safe", mkRat 20 100), ("critical", mkRat 60 100),
    ("offensive", mkRat 90 100), ("unknown", mkRat 50 100) ]

/-- The fallback branch of `_get_permission_score`:
`risk_scores.get(skill.metadata.get("risk", "unknown"), 0.5)`. -/
def riskFallbackScore (skill : Skill) : ℚ :=
  (assocLookup riskScoresTable ((skill.metaGet "risk").getD "unknown")).getD (mkRat 50 100)

/-- `SkillScanner._get_permission_score`. The declared-permissions branch is
as the source has it: `skill.metadata.get("permissions", [])` is the raw
frontmatter string, and `for perm in permissions` iterates over its
characters, each looked up in the configured permission table. -/
def getPermissionScore (cfg : ThresholdsConfig) (skill : Skill) : ℚ :=
  match skill.metaGet "permissions" with
  | none => riskFallbackScore skill
  | some permsStr =>
    if permsStr == "" then riskFallbackScore skill
    else
      permsStr.toList.foldl (fun m c =>
        match assocLookup cfg.permissions (String.singleton c) with
        | some v => max m v
        | none => m) 0

/-- `SkillScanner._get_source_trust_score`: configured score of the declared
trust level, default 0.5. -/
def getSourceTrustScore (cfg : ThresholdsConfig) (skill : Skill) : ℚ :=
  match assocLookup cfg.sourceTrust ((skill.metaGet "trust_level").getD "community") with
  | some v => v
  | none => mkRat 50 100

/-- `SkillScanner._calculate_risk_score`: the weighted sum of maximal finding
severity, permission score, source-trust score and the (always zero)
community score, capped above at 1. -/
def calculateRiskScore (cfg : ThresholdsConfig) (skill : Skill)
    (findings : List Finding) : ℚ :=
  let patternScore := maxSeverity findings
  let permissionScore := getPermissionScore cfg skill
  let sourceScore := getSourceTrustScore cfg skill
  let communityScore : ℚ := 0
  min 1
    (cfg.wPatternSeverity * patternScore + cfg.wPermissionScope * permissionScore +
      cfg.wSourceTrust * sourceScore + cfg.wCommunityReports * communityScore)

/-- `SkillScanner._classify_risk`: highest threshold bucket whose minimum the
score meets, evaluated critical, high, medium, else low. -/
def classifyRisk (cfg : ThresholdsConfig) (score : ℚ) : String :=
  if cfg.criticalMin ≤ score then "critical"
  else if cfg.highMin ≤ score then "high"
  else if cfg.mediumMin ≤ score then "medium"
  else "low"

/-- The error message of the invalid-manifest early return. -/
def invalidSkillError : String :=
  "Invalid skill: Missing or malformed SKILL.md"

/-- The L2 escalation gate of `scan_skill`:
`skill.metadata.get("risk") == "offensive" or any(f.severity >= 0.3 for f in findings)`. -/
def shouldRunL2 (skill : Skill) (findings : List Finding) : Bool :=
  skill.metaGet "risk" == some "offensive" ||
    findings.any (fun f => mkRat 3 10 ≤ f.severity)

/-- The L3 escalation gate of `scan_skill`: running maximal severity at
least 0.6. -/
def shouldRunL3 (findings : List Finding) : Bool :=
  mkRat 6 10 ≤ maxSeverity findings

/-- `SkillScanner.scan_skill` at `level="all"`, the four analyzers passed as
functions of the skill: invalid manifest short-circuits; L1 always runs; L2
and L3 run behind their gates over the running finding list; L4 always runs;
then aggregation, classification and the result record with `top_finding`
taken from the head of the final list. -/
def scanSkillAll (cfg : ThresholdsConfig) (l1 l2 l3 l4 : Skill → List Finding)
    (folderName : String) (skill : Skill) : SkillResult :=
  if skill.isValid = false then
    { name := folderName, path := folderName, isValid := false,
      error := some invalidSkillError }
  else
    let f1 := l1 skill
    let f2 := f1 ++ (if shouldRunL2 skill f1 then l2 skill else [])
    let f3 := f2 ++ (if shouldRunL3 f2 then l3 skill else [])
    let findings := f3 ++ l4 skill
    let riskScore := calculateRiskScore cfg skill findings
    { name := skill.name, path := folderName, isValid := true,
      riskScore := riskScore, classification := classifyRisk cfg riskScore,
      findings := findings,
      topFinding := findings.head?.map Finding.description,
      metadata := skill.metadata }

/-- `SkillScanner.scan_skill` at `level="all"` with exception propagation
made explicit: each analyzer may raise (`Except.error`). The orchestrator
wraps no analyzer call in a handler, so an exception raised inside a level
propagates out of `scan_skill`; only the invalid-manifest branch returns a
result without calling any analyzer. -/
def scanSkillAllE (cfg : ThresholdsConfig)
    (l1 l2 l3 l4 : Skill → Except String (List Finding))
    (folderName : String) (skill : Skill) : Except String SkillResult :=
  if skill.isValid = false then
    .ok { name := folderName, path := folderName, isValid := false,
          error := some invalidSkillError }
  else
    (l1 skill).bind (fun f1 =>
      (if shouldRunL2 skill f1 then (l2 skill).map (fun x => f1 ++ x) else .ok f1).bind
        (fun f2 =>
          (if shouldRunL3 f2 then (l3 skill).map (fun x => f2 ++ x) else .ok f2).bind
            (fun f3 =>
              (l4 skill).map (fun f4 =>
                let findings := f3 ++ f4
                let riskScore := calculateRiskScore cfg skill findings
                { name := skill.name, path := folderName, isValid := true,
                  riskScore := riskScore, classification := classifyRisk cfg riskScore,
                  findings := findings,
                  topFinding := findings.head?.map Finding.description,
                  metadata := skill.metadata }))))

/-! ## Scan report (`models/report.py`) -/

/-- `passed` of `ScanReport.from_results`: results classified "low". -/
def passedCount (results : List SkillResult) : Nat :=
  (results.filter (fun r => r.classification == "low")).length

/-- `flagged` of `ScanReport.from_results`: results classified "medium" or
"high". -/
def flaggedCount (results : List SkillResult) : Nat :=
  (results.filter (fun r => r.classification == "medium" ||
    r.classification == "high")).length

/-- `blocked` of `ScanReport.from_results`: results classified "critical". -/
def blockedCount (results : List SkillResult) : Nat :=
  (results.filter (fun r => r.classification == "critical")).length

/-! ## Spec-shaped predicates and comparison definitions -/

/-- A finding list ordered by descending severity. -/
def sortedDescBySeverity (l : List Finding) : Prop :=
  l.Pairwise (fun a b => b.severity ≤ a.severity)

instance (l : List Finding) : Decidable (sortedDescBySeverity l) :=
  List.instDecidablePairwise l

/-- Modelled from the spec (§4.4): the permission score as the spec states
it — "if explicit permissions are declared, take the maximum of their
configured scores; otherwise infer from declared risk level via a fixed
table". Declared permissions are the parsed tokens of `Skill.permissions`. -/
def permissionScoreSpec (cfg : ThresholdsConfig) (skill : Skill) : ℚ :=
  match skill.permissions with
  | [] => riskFallbackScore skill
  | perms =>
    perms.foldl (fun m p =>
      match assocLookup cfg.permissions p with
      | some v => max m v
      | none => m) 0


/-! ## Concrete instances for witnesses and counterexamples -/

/-- A thresholds config with the weights of the `_calculate_risk_score`
docstring and placeholder classification minimums. -/
def demoCfg : ThresholdsConfig :=
  { wPatternSeverity := mkRat 40 100, wPermissionScope := mkRat 30 100,
    wSourceTrust := mkRat 20 100, wCommunityReports := mkRat 10 100,
    criticalMin := mkRat 80 100, highMin := mkRat 60 100, mediumMin := mkRat 40 100 }

/-- An empty compiled rule table. -/
def emptyRules : RuleTable := {}

/-- The trust config with its dataclass defaults (no signature requirement,
empty registry). -/
def defaultTrustCfg : TrustConfig := {}

/-- A well-formed low-risk skill whose only L1 finding is the missing source
attribution. -/
def demoSkill : Skill :=
  { folderName := "demo", name := "demo",
    content := "---\nname: demo\ndescription: d\nrisk: safe\n---\nbody text",
    metadata := [ ("name", "demo"), ("description", "d"), ("risk", "safe") ],
    isValid := true, codeBlocks := [] }

/-- `demoSkill` with the fields the Pattern Engine never reads changed. -/
def demoSkillRelabelled : Skill :=
  { demoSkill with name := "other", isValid := false }

/-- The scan of `demoSkill` with the embedded L1 and L4 analyzers and no
L2/L3 contribution. -/
def demoScan : SkillResult :=
  scanSkillAll demoCfg (StaticAnalyzer.analyze emptyRules) (fun _ => [])
    (fun _ => []) (TrustVerifier.verify defaultTrustCfg false) "demo" demoSkill

/-- A skill with two testable python fragments. -/
def c5Skill : Skill :=
  { folderName := "frag", name := "frag", content := "", metadata := [],
    isValid := true,
    codeBlocks := [ CodeBlock.mk "python" "x = 1\ny = 2\nz = 3",
                    CodeBlock.mk "python" "a = 4\nb = 5\nc = 6" ] }

/-- Sandbox outcomes for `c5Skill`: the first fragment faults with an
unexpected execution error, the second times out. -/
def c5Outcomes : Nat → SandboxOutcome :=
  fun i => if i = 0 then .errored "boom" else .timedOut

/-- An oracle analysis whose one finding reports severity 2.0 — a response
the remote classifier is free to return. -/
def c3Analysis : OracleAnalysis :=
  { findings := [ { type := some "malicious_code", description := some "injected",
                    severity := some 2 } ] }

/-- A skill declaring the single permission `network`. -/
def c6Skill : Skill :=
  { folderName := "p", name := "p", content := "",
    metadata := [ ("permissions", "network"), ("risk", "safe") ],
    isValid := true, codeBlocks := [] }

/-- A thresholds config scoring the permission `network` at 0.8. -/
def c6Cfg : ThresholdsConfig :=
  { demoCfg with permissions := [ ("network", mkRat 8 10) ] }

/-- A skill declaring risk `none` and nothing else. -/
def c7Skill : Skill :=
  { folderName := "n", name := "n", content := "", metadata := [ ("risk", "none") ],
    isValid := true, codeBlocks := [] }

/-- A finding with a negative severity, as the unclamped L2 conversion can
produce from an oracle response. -/
def negFinding : Finding :=
  { level := "L2", name := "probe", description := "negative severity", severity := -1 }

/-- A skill whose source attribution is a non-URL, non-self string. -/
def c10Skill : Skill :=
  { folderName := "s", name := "s", content := "",
    metadata := [ ("source", "ftp://example.com") ], isValid := true, codeBlocks := [] }

/-- A skill whose manifest failed to load. -/
def invalidSkill : Skill :=
  { folderName := "broken", name := "broken", content := "", metadata := [],
    isValid := false, codeBlocks := [] }

/-! ## Helper lemmas -/

theorem mem_insertDesc {f g : Finding} {l : List Finding} :
    g ∈ insertDesc f l ↔ g = f ∨ g ∈ l := by
  induction l with
  | nil => simp [insertDesc]
  | cons x rest ih =>
    by_cases hc : f.severity < x.severity
    · simp only [insertDesc, if_pos hc, List.mem_cons, ih]
      tauto
    · simp only [insertDesc, if_neg hc, List.mem_cons]
      try tauto

theorem sortedDesc_insertDesc {f : Finding} {l : List Finding}
    (h : sortedDescBySeverity l) : sortedDescBySeverity (insertDesc f l) := by
  induction l with
  | nil => simp [insertDesc, sortedDescBySeverity]
  | cons g rest ih =>
    rw [sortedDescBySeverity, List.pairwise_cons] at h
    obtain ⟨hg, hrest⟩ := h
    by_cases hc : f.severity < g.severity
    · rw [sortedDescBySeverity, insertDesc, if_pos hc, List.pairwise_cons]
      refine ⟨fun x hx => ?_, ih hrest⟩
      rcases mem_insertDesc.mp hx with rfl | hx
      · exact le_of_lt hc
      · exact hg x hx
    · rw [sortedDescBySeverity, insertDesc, if_neg hc, List.pairwise_cons]
      refine ⟨fun x hx => ?_, ?_⟩
      · rcases List.mem_cons.mp hx with rfl | hx
        · exact le_of_not_lt hc
        · exact le_trans (hg x hx) (le_of_not_lt hc)
      · rw [List.pairwise_cons]
        exact ⟨hg, hrest⟩

theorem sortFindings_sortedDesc (l : List Finding) :
    sortedDescBySeverity (sortFindings l) := by
  induction l with
  | nil => simp [sortFindings, sortedDescBySeverity]
  | cons f rest ih => exact sortedDesc_insertDesc ih

theorem riskLevel_offensive_iff (skill : Skill) :
    skill.riskLevel = "offensive" ↔ skill.metaGet "risk" = some "offensive" := by
  unfold Skill.riskLevel
  cases h : skill.metaGet "risk" with
  | none => simp
  | some r => simp

theorem shouldRunL2_iff (skill : Skill) (findings : List Finding) :
    shouldRunL2 skill findings = true ↔
      skill.riskLevel = "offensive" ∨ ∃ f ∈ findings, mkRat 3 10 ≤ f.severity := by
  rw [riskLevel_offensive_iff]
  simp [shouldRunL2, List.any_eq_true]

theorem shouldRunL3_iff (findings : List Finding) :
    shouldRunL3 findings = true ↔ mkRat 6 10 ≤ maxSeverity findings := by
  simp [shouldRunL3]

theorem foldl_max_nonneg (l : List ℚ) (a : ℚ) (ha : 0 ≤ a) : 0 ≤ l.foldl max a := by
  induction l generalizing a with
  | nil => exact ha
  | cons x rest ih => exact ih (max a x) (le_trans ha (le_max_left a x))

theorem maxSeverity_nonneg {findings : List Finding}
    (h : ∀ f ∈ findings, 0 ≤ f.severity) : 0 ≤ maxSeverity findings := by
  unfold maxSeverity
  cases hm : findings.map Finding.severity with
  | nil => exact le_refl 0
  | cons s rest =>
    have hs : s ∈ findings.map Finding.severity := by rw [hm]; exact List.mem_cons_self s rest
    obtain ⟨f, hf, rfl⟩ := List.mem_map.mp hs
    exact foldl_max_nonneg rest f.severity (h f hf)

theorem maxSeverity_congr {fs1 fs2 : List Finding}
    (h : fs1.map Finding.severity = fs2.map Finding.severity) :
    maxSeverity fs1 = maxSeverity fs2 := by
  unfold maxSeverity
  rw [h]

theorem assocLookup_getD_nonneg (table : List (String × ℚ)) (key : String) (d : ℚ)
    (ht : ∀ p ∈ table, 0 ≤ p.2) (hd : 0 ≤ d) : 0 ≤ (assocLookup table key).getD d := by
  unfold assocLookup
  cases hf : table.find? (fun kv => kv.1 == key) with
  | none => simpa using hd
  | some kv =>
    have hmem : kv ∈ table := List.mem_of_find?_eq_some hf
    simpa using ht kv hmem

theorem riskFallbackScore_nonneg (skill : Skill) : 0 ≤ riskFallbackScore skill := by
  unfold riskFallbackScore
  exact assocLookup_getD_nonneg _ _ _ (by decide) (by decide)

theorem foldl_permChar_nonneg (cfg : ThresholdsConfig) (l : List Char) (a : ℚ)
    (ha : 0 ≤ a) :
    0 ≤ l.foldl (fun m c =>
      match assocLookup cfg.permissions (String.singleton c) with
      | some v => max m v
      | none => m) a := by
  induction l generalizing a with
  | nil => exact ha
  | cons c rest ih =>
    rw [List.foldl_cons]
    cases h : assocLookup cfg.permissions (String.singleton c) with
    | none =>
      simp only [h]
      exact ih a ha
    | some v =>
      simp only [h]
      exact ih _ (le_trans ha (le_max_left a v))

theorem getPermissionScore_nonneg (cfg : ThresholdsConfig) (skill : Skill) :
    0 ≤ getPermissionScore cfg skill := by
  unfold getPermissionScore
  cases skill.metaGet "permissions" with
  | none => exact riskFallbackScore_nonneg skill
  | some permsStr =>
    by_cases he : (permsStr == "") = true
    · simp only [he, if_true]
      exact riskFallbackScore_nonneg skill
    · simp only [he, if_false]
      exact foldl_permChar_nonneg cfg permsStr.toList 0 (le_refl 0)

theorem assocLookup_eq_some {α : Type} {table : List (String × α)} {key : String}
    {v : α} (h : assocLookup table key = some v) : ∃ kv ∈ table, kv.2 = v := by
  unfold assocLookup at h
  cases hg : table.find? (fun kv => kv.1 == key) with
  | none => rw [hg] at h; exact absurd h (by simp)
  | some kv =>
    rw [hg] at h
    exact ⟨kv, List.mem_of_find?_eq_some hg, by simpa using h⟩

theorem getSourceTrustScore_nonneg (cfg : ThresholdsConfig) (skill : Skill)
    (hs : ∀ p ∈ cfg.sourceTrust, 0 ≤ p.2) : 0 ≤ getSourceTrustScore cfg skill := by
  unfold getSourceTrustScore
  cases hf : assocLookup cfg.sourceTrust ((skill.metaGet "trust_level").getD "community") with
  | none => decide
  | some v =>
    obtain ⟨kv, hkv, hv⟩ := assocLookup_eq_some hf
    exact hv ▸ hs kv hkv

theorem getPermissionScore_congr (cfg : ThresholdsConfig) {s1 s2 : Skill}
    (h : s1.metadata = s2.metadata) :
    getPermissionScore cfg s1 = getPermissionScore cfg s2 := by
  unfold getPermissionScore riskFallbackScore Skill.metaGet
  rw [h]

theorem getSourceTrustScore_congr (cfg : ThresholdsConfig) {s1 s2 : Skill}
    (h : s1.metadata = s2.metadata) :
    getSourceTrustScore cfg s1 = getSourceTrustScore cfg s2 := by
  unfold getSourceTrustScore Skill.metaGet
  rw [h]

/-! ## The claims -/

/-- C1: for every valid skill scanned at level "all", the escalation gates
are exactly: L2 runs iff the declared risk is "offensive" or some finding
accumulated so far has severity at least 0.3; L3 runs iff the maximum
severity over all findings accumulated so far (default 0 when empty) is at
least 0.6; L1 and L4 always run, their findings concatenated in level
order. -/
theorem claim_c1_escalation_gates (cfg : ThresholdsConfig)
    (l1 l2 l3 l4 : Skill → List Finding) (fn : String) (skill : Skill)
    (h : skill.isValid = true) :
    (scanSkillAll cfg l1 l2 l3 l4 fn skill).findings =
      l1 skill ++
        ((if shouldRunL2 skill (l1 skill) then l2 skill else []) ++
          ((if shouldRunL3 (l1 skill ++
              (if shouldRunL2 skill (l1 skill) then l2 skill else [])) then l3 skill
            else []) ++ l4 skill)) ∧
    (shouldRunL2 skill (l1 skill) = true ↔
      skill.riskLevel = "offensive" ∨ ∃ f ∈ l1 skill, mkRat 3 10 ≤ f.severity) ∧
    (∀ fs : List Finding, shouldRunL3 fs = true ↔ mkRat 6 10 ≤ maxSeverity fs) := by
  refine ⟨?_, shouldRunL2_iff skill (l1 skill), shouldRunL3_iff⟩
  simp [scanSkillAll, h, List.append_assoc]

/-- Witness for C1 at the concrete `demoSkill` scan. -/
theorem claim_c1_witness :
    (scanSkillAll demoCfg (StaticAnalyzer.analyze emptyRules) (fun _ => [])
        (fun _ => []) (TrustVerifier.verify defaultTrustCfg false)
        "demo" demoSkill).findings =
      StaticAnalyzer.analyze emptyRules demoSkill ++
        ((if shouldRunL2 demoSkill (StaticAnalyzer.analyze emptyRules demoSkill) then
            (fun _ => ([] : List Finding)) demoSkill else []) ++
          ((if shouldRunL3 (StaticAnalyzer.analyze emptyRules demoSkill ++
              (if shouldRunL2 demoSkill (StaticAnalyzer.analyze emptyRules demoSkill) then
                (fun _ => ([] : List Finding)) demoSkill else [])) then
              (fun _ => ([] : List Finding)) demoSkill
            else []) ++ TrustVerifier.verify defaultTrustCfg false demoSkill)) ∧
    (shouldRunL2 demoSkill (StaticAnalyzer.analyze emptyRules demoSkill) = true ↔
      demoSkill.riskLevel = "offensive" ∨
        ∃ f ∈ StaticAnalyzer.analyze emptyRules demoSkill, mkRat 3 10 ≤ f.severity) ∧
    (∀ fs : List Finding, shouldRunL3 fs = true ↔ mkRat 6 10 ≤ maxSeverity fs) :=
  claim_c1_escalation_gates demoCfg (StaticAnalyzer.analyze emptyRules) (fun _ => [])
    (fun _ => []) (TrustVerifier.verify defaultTrustCfg false) "demo" demoSkill rfl

/-- C2 counterexample: in the `demoSkill` scan the returned findings list is
the 0.15-severity L1 finding followed by the 0.40-severity L4 finding — not
ordered by descending severity — and `topFinding` is the description of the
0.15 L1 finding, not of the highest-severity finding (severity 0.40,
description "Skill has no source attribution"). -/
theorem claim_c2_counterexample :
    ¬ sortedDescBySeverity demoScan.findings ∧
    demoScan.findings.map Finding.severity = [ mkRat 15 100, mkRat 40 100, mkRat 15 100 ] ∧
    demoScan.topFinding = some "Missing source attribution" ∧
    maxSeverity demoScan.findings = mkRat 40 100 ∧
    demoScan.topFinding ≠ some "Skill has no source attribution" := by
  refine ⟨by decide, by decide, by decide, by decide, by decide⟩

/-- C2 amended: the scanner sorts only within L1 — `StaticAnalyzer.analyze`
returns its findings in descending severity order and the scan result begins
with them — but the overall findings list is the plain level-order
concatenation, never re-sorted, and `topFinding` is the description of the
first element of that list (the top L1 finding whenever L1 produced any),
not necessarily of the globally highest-severity finding. -/
theorem claim_c2_level_order (cfg : ThresholdsConfig) (rt : RuleTable)
    (tcfg : TrustConfig) (sig : Bool) (l2 l3 : Skill → List Finding)
    (fn : String) (skill : Skill) (h : skill.isValid = true) :
    sortedDescBySeverity (StaticAnalyzer.analyze rt skill) ∧
    (∃ rest, (scanSkillAll cfg (StaticAnalyzer.analyze rt) l2 l3
        (TrustVerifier.verify tcfg sig) fn skill).findings =
      StaticAnalyzer.analyze rt skill ++ rest) ∧
    (scanSkillAll cfg (StaticAnalyzer.analyze rt) l2 l3
        (TrustVerifier.verify tcfg sig) fn skill).topFinding =
      ((scanSkillAll cfg (StaticAnalyzer.analyze rt) l2 l3
        (TrustVerifier.verify tcfg sig) fn skill).findings.head?).map
          Finding.description := by
  refine ⟨?_, ?_, ?_⟩
  · exact sortFindings_sortedDesc _
  · refine ⟨(if shouldRunL2 skill (StaticAnalyzer.analyze rt skill) then l2 skill else []) ++
      ((if shouldRunL3 (StaticAnalyzer.analyze rt skill ++
          (if shouldRunL2 skill (StaticAnalyzer.analyze rt skill) then l2 skill else []))
        then l3 skill else []) ++ TrustVerifier.verify tcfg sig skill), ?_⟩
    simp [scanSkillAll, h, List.append_assoc]
  · simp [scanSkillAll, h]

/-- Witness for C2 amended at the concrete `demoSkill` scan. -/
theorem claim_c2_witness :
    sortedDescBySeverity (StaticAnalyzer.analyze emptyRules demoSkill) ∧
    (∃ rest, (scanSkillAll demoCfg (StaticAnalyzer.analyze emptyRules) (fun _ => [])
        (fun _ => []) (TrustVerifier.verify defaultTrustCfg false)
        "demo" demoSkill).findings =
      StaticAnalyzer.analyze emptyRules demoSkill ++ rest) ∧
    (scanSkillAll demoCfg (StaticAnalyzer.analyze emptyRules) (fun _ => [])
        (fun _ => []) (TrustVerifier.verify defaultTrustCfg false)
        "demo" demoSkill).topFinding =
      ((scanSkillAll demoCfg (StaticAnalyzer.analyze emptyRules) (fun _ => [])
        (fun _ => []) (TrustVerifier.verify defaultTrustCfg false)
        "demo" demoSkill).findings.head?).map Finding.description :=
  claim_c2_level_order demoCfg emptyRules defaultTrustCfg false (fun _ => [])
    (fun _ => []) "demo" demoSkill rfl

/-- C3: the L2 conversion copies the oracle-reported severity into the
Finding without clamping — `c3Analysis` reports severity 2.0 and the
produced Finding carries severity 2.0, outside the documented interval
[0.0, 1.0] of the `Finding` dataclass. -/
theorem claim_c3_unclamped_severity :
    (convertToFindings c3Analysis).map Finding.severity = [ 2 ] ∧
    ¬ ((2 : ℚ) ≤ 1) ∧
    (convertToFindings c3Analysis).map Finding.name = [ "malicious_code" ] := by
  refine ⟨by decide, by decide, by decide⟩

/-- C4 counterexample: an exception raised inside the L1 analyzer propagates
out of `scan_skill` — no low-severity Finding is produced and no SkillResult
is returned for that skill. -/
theorem claim_c4_counterexample :
    scanSkillAllE demoCfg (fun _ => .error "boom") (fun _ => .ok []) (fun _ => .ok [])
        (fun _ => .ok []) "demo" demoSkill = .error "boom" ∧
    (scanSkillAllE demoCfg (fun _ => .error "boom") (fun _ => .ok []) (fun _ => .ok [])
        (fun _ => .ok []) "demo" demoSkill).toOption = none := by
  refine ⟨rfl, rfl⟩

/-- C4 amended: only the L2 analyzer converts an unexpected failure of its
oracle call into a low-severity (0.10) `analysis_error` Finding, and a scan
whose analyzers all return normally completes to a SkillResult; an exception
raised directly inside the L1 analyzer (symmetrically, L4) is not caught by
the orchestrator and aborts the scan of that skill; a manifest load failure
also terminates the scan early. -/
theorem claim_c4_propagation (cfg : ThresholdsConfig) (fn : String) (skill : Skill)
    (msg : String) (l2E l3E l4E : Skill → Except String (List Finding))
    (a b c d : Skill → List Finding) (h : skill.isValid = true) :
    (SemanticAnalyzer.analyze true (.error msg) =
      [ { level := "L2", name := "analysis_error",
          description := "Semantic analysis failed: " ++ msg, severity := mkRat 10 100,
          mitigation := some "Check Gemini API configuration" } ]) ∧
    (scanSkillAllE cfg (fun s => .ok (a s)) (fun s => .ok (b s)) (fun s => .ok (c s))
        (fun s => .ok (d s)) fn skill = .ok (scanSkillAll cfg a b c d fn skill)) ∧
    (scanSkillAllE cfg (fun _ => .error msg) l2E l3E l4E fn skill = .error msg) := by
  refine ⟨rfl, ?_, ?_⟩
  · simp only [scanSkillAllE, scanSkillAll, h]
    by_cases h2 : shouldRunL2 skill (a skill)
    · by_cases h3 : shouldRunL3 (a skill ++ b skill) <;>
        simp [h2, h3, Except.bind, Except.map, List.append_assoc]
    · by_cases h3 : shouldRunL3 (a skill) <;>
        simp [h2, h3, Except.bind, Except.map, List.append_assoc]
  · simp [scanSkillAllE, h, Except.bind]

/-- Witness for C4 amended at the concrete `demoSkill` scan. -/
theorem claim_c4_witness :
    (SemanticAnalyzer.analyze true (.error "boom") =
      [ { level := "L2", name := "analysis_error",
          description := "Semantic analysis failed: " ++ "boom", severity := mkRat 10 100,
          mitigation := some "Check Gemini API configuration" } ]) ∧
    (scanSkillAllE demoCfg (fun s => .ok ((fun _ => ([] : List Finding)) s))
        (fun s => .ok ((fun _ => ([] : List Finding)) s))
        (fun s => .ok ((fun _ => ([] : List Finding)) s))
        (fun s => .ok ((fun _ => ([] : List Finding)) s)) "demo" demoSkill =
      .ok (scanSkillAll demoCfg (fun _ => []) (fun _ => []) (fun _ => [])
        (fun _ => []) "demo" demoSkill)) ∧
    (scanSkillAllE demoCfg (fun _ => .error "boom") (fun _ => .ok [])
        (fun _ => .ok []) (fun _ => .ok []) "demo" demoSkill = .error "boom") :=
  claim_c4_propagation demoCfg "demo" demoSkill "boom" (fun _ => .ok [])
    (fun _ => .ok []) (fun _ => .ok []) (fun _ => []) (fun _ => [])
    (fun _ => []) (fun _ => []) rfl

/-- C5 counterexample: in the `c5Skill` run the first fragment faults with an
unexpected execution error — yet the second fragment still runs (it times
out and contributes its `execution_timeout` finding), so the executor did
not return early after the fault. -/
theorem claim_c5_counterexample :
    (DynamicAnalyzer.analyze {} true c5Outcomes c5Skill).map Finding.name =
      [ "sandbox_error", "execution_timeout" ] ∧
    (DynamicAnalyzer.analyze {} true c5Outcomes c5Skill).map Finding.severity =
      [ mkRat 10 100, mkRat 60 100 ] ∧
    (extractTestableCode c5Skill).length = 2 := by
  refine ⟨by decide, by decide, by decide⟩

/-- C5 amended: when the sandbox is enabled, Docker is available and at
least one fragment is testable, the executor runs every testable fragment
in order — an unexpected execution fault on one fragment yields exactly the
0.10-severity `sandbox_error` Finding for that fragment and does not abort
the remaining fragments, just as a timeout yields its fixed 0.60-severity
finding without aborting; only the pre-loop checks (sandbox disabled,
Docker unavailable, nothing testable) end the level early. -/
theorem claim_c5_no_early_return (cfg : SandboxConfig) (outcomes : Nat → SandboxOutcome)
    (skill : Skill) (h1 : cfg.enabled = true)
    (h2 : (extractTestableCode skill).isEmpty = false) :
    DynamicAnalyzer.analyze cfg true outcomes skill =
      (extractTestableCode skill).enum.flatMap
        (fun ib => runInSandbox cfg.timeout (outcomes ib.1) ib.1) ∧
    (∀ i msg, runInSandbox cfg.timeout (.errored msg) i =
      [ { level := "L3", name := "sandbox_error",
          description := "Sandbox execution error: " ++ msg,
          severity := mkRat 10 100 } ]) ∧
    (∀ i, runInSandbox cfg.timeout .timedOut i =
      [ { level := "L3", name := "execution_timeout",
          description := "Code block " ++ toString i ++ " exceeded timeout (" ++
            toString cfg.timeout ++ "s)",
          severity := mkRat 60 100,
          mitigation := some "Review code for infinite loops or excessive computation" } ]) := by
  refine ⟨?_, fun i msg => rfl, fun i => rfl⟩
  simp [DynamicAnalyzer.analyze, h1, h2]

/-- Witness for C5 amended at the concrete two-fragment skill. -/
theorem claim_c5_witness :
    DynamicAnalyzer.analyze {} true c5Outcomes c5Skill =
      (extractTestableCode c5Skill).enum.flatMap
        (fun ib => runInSandbox ({} : SandboxConfig).timeout (c5Outcomes ib.1) ib.1) ∧
    (∀ i msg, runInSandbox ({} : SandboxConfig).timeout (.errored msg) i =
      [ { level := "L3", name := "sandbox_error",
          description := "Sandbox execution error: " ++ msg,
          severity := mkRat 10 100 } ]) ∧
    (∀ i, runInSandbox ({} : SandboxConfig).timeout .timedOut i =
      [ { level := "L3", name := "execution_timeout",
          description := "Code block " ++ toString i ++ " exceeded timeout (" ++
            toString ({} : SandboxConfig).timeout ++ "s)",
          severity := mkRat 60 100,
          mitigation := some "Review code for infinite loops or excessive computation" } ]) :=
  claim_c5_no_early_return {} c5Outcomes c5Skill rfl (by decide)

/-- C6: the permission-score computation iterates over the characters of the
raw `permissions` metadata string instead of the parsed permission tokens —
`c6Skill` declares the permission `network`, which `c6Cfg` scores at 0.8,
yet `_get_permission_score` returns 0.0 because no single character of
"network" is a key of the permission table, while the spec-shaped score
over `Skill.permissions` returns 0.8. -/
theorem claim_c6_char_iteration :
    getPermissionScore c6Cfg c6Skill = 0 ∧
    permissionScoreSpec c6Cfg c6Skill = mkRat 8 10 ∧
    c6Skill.permissions = [ "network" ] ∧
    (0 : ℚ) ≠ mkRat 8 10 := by
  refine ⟨by decide, by decide, by decide, by decide⟩

/-- C7 counterexample: the aggregated risk score is only capped above —
with the documented weights, a finding carrying the (unclamped) severity
-1.0 and a skill declaring risk `none`, the score is -0.3, outside
[0, 1]. -/
theorem claim_c7_counterexample :
    calculateRiskScore demoCfg c7Skill [ negFinding ] < 0 := by
  have hmax : maxSeverity [ negFinding ] = -1 := by decide
  have hperm : getPermissionScore demoCfg c7Skill = 0 := by decide
  have hsrc : getSourceTrustScore demoCfg c7Skill = mkRat 50 100 := by decide
  simp only [calculateRiskScore, hmax, hperm, hsrc]
  refine lt_of_le_of_lt (min_le_right _ _) ?_
  show demoCfg.wPatternSeverity * (-1) + demoCfg.wPermissionScope * 0 +
      demoCfg.wSourceTrust * mkRat 50 100 + demoCfg.wCommunityReports * 0 < 0
  simp only [demoCfg]
  rw [Rat.mkRat_eq_div, Rat.mkRat_eq_div, Rat.mkRat_eq_div, Rat.mkRat_eq_div,
    Rat.mkRat_eq_div]
  norm_num

/-- C7 amended: the aggregated risk score is a deterministic pure function
of the finding severities, the skill's metadata and the configured weights
and tables — equal severity lists and equal metadata give the identical
score and classification — and the score is always at most 1; it lies in
[0, 1] whenever the weights, the configured source-trust scores and the
finding severities are all nonnegative (absent that, `min(1.0, ...)` does
not clamp below, as the counterexample shows). -/
theorem claim_c7_deterministic_clamped (cfg : ThresholdsConfig) (s1 s2 : Skill)
    (fs1 fs2 : List Finding) (hmeta : s1.metadata = s2.metadata)
    (hsev : fs1.map Finding.severity = fs2.map Finding.severity) :
    calculateRiskScore cfg s1 fs1 = calculateRiskScore cfg s2 fs2 ∧
    classifyRisk cfg (calculateRiskScore cfg s1 fs1) =
      classifyRisk cfg (calculateRiskScore cfg s2 fs2) ∧
    calculateRiskScore cfg s1 fs1 ≤ 1 ∧
    ((0 ≤ cfg.wPatternSeverity ∧ 0 ≤ cfg.wPermissionScope ∧ 0 ≤ cfg.wSourceTrust ∧
        0 ≤ cfg.wCommunityReports) →
      (∀ p ∈ cfg.sourceTrust, 0 ≤ p.2) →
      (∀ f ∈ fs1, 0 ≤ f.severity) →
      0 ≤ calculateRiskScore cfg s1 fs1) := by
  have hdet : calculateRiskScore cfg s1 fs1 = calculateRiskScore cfg s2 fs2 := by
    unfold calculateRiskScore
    rw [maxSeverity_congr hsev, getPermissionScore_congr cfg hmeta,
      getSourceTrustScore_congr cfg hmeta]
  refine ⟨hdet, by rw [hdet], ?_, ?_⟩
  · exact min_le_left _ _
  · rintro ⟨hw1, hw2, hw3, hw4⟩ hsrc hf
    simp only [calculateRiskScore]
    refine le_min (by norm_num) ?_
    have h1 : 0 ≤ cfg.wPatternSeverity * maxSeverity fs1 :=
      mul_nonneg hw1 (maxSeverity_nonneg hf)
    have h2 : 0 ≤ cfg.wPermissionScope * getPermissionScore cfg s1 :=
      mul_nonneg hw2 (getPermissionScore_nonneg cfg s1)
    have h3 : 0 ≤ cfg.wSourceTrust * getSourceTrustScore cfg s1 :=
      mul_nonneg hw3 (getSourceTrustScore_nonneg cfg s1 hsrc)
    have h4 : 0 ≤ cfg.wCommunityReports * (0 : ℚ) := by rw [mul_zero]
    linarith

/-- Witness for C7 amended at the concrete negative-severity aggregation. -/
theorem claim_c7_witness :
    calculateRiskScore demoCfg c7Skill [ negFinding ] =
      calculateRiskScore demoCfg c7Skill [ negFinding ] ∧
    classifyRisk demoCfg (calculateRiskScore demoCfg c7Skill [ negFinding ]) =
      classifyRisk demoCfg (calculateRiskScore demoCfg c7Skill [ negFinding ]) ∧
    calculateRiskScore demoCfg c7Skill [ negFinding ] ≤ 1 ∧
    ((0 ≤ demoCfg.wPatternSeverity ∧ 0 ≤ demoCfg.wPermissionScope ∧
        0 ≤ demoCfg.wSourceTrust ∧ 0 ≤ demoCfg.wCommunityReports) →
      (∀ p ∈ demoCfg.sourceTrust, 0 ≤ p.2) →
      (∀ f ∈ [ negFinding ], 0 ≤ f.severity) →
      0 ≤ calculateRiskScore demoCfg c7Skill [ negFinding ]) :=
  claim_c7_deterministic_clamped demoCfg c7Skill c7Skill [ negFinding ] [ negFinding ]
    rfl rfl

/-- C8: the Pattern Engine is a pure function of the skill's content,
metadata, folder name and code blocks together with the compiled rule
table — two skills agreeing on those inputs (whatever their other fields)
produce the identical ordered finding list, so running it twice on
identical content with an identical rule table yields identical output, and
no state outside the returned list exists to be modified. -/
theorem claim_c8_pattern_engine_pure (rt : RuleTable) (s1 s2 : Skill)
    (hc : s1.content = s2.content) (hm : s1.metadata = s2.metadata)
    (hf : s1.folderName = s2.folderName) (hb : s1.codeBlocks = s2.codeBlocks) :
    StaticAnalyzer.analyze rt s1 = StaticAnalyzer.analyze rt s2 := by
  obtain ⟨f1, n1, c1, m1, v1, b1⟩ := s1
  obtain ⟨f2, n2, c2, m2, v2, b2⟩ := s2
  simp only at hc hm hf hb
  subst hc; subst hm; subst hf; subst hb
  rfl

/-- Witness for C8: `demoSkillRelabelled` differs from `demoSkill` only in
the fields the Pattern Engine never reads, and the outputs coincide. -/
theorem claim_c8_witness :
    StaticAnalyzer.analyze emptyRules demoSkill =
      StaticAnalyzer.analyze emptyRules demoSkillRelabelled :=
  claim_c8_pattern_engine_pure emptyRules demoSkill demoSkillRelabelled rfl rfl rfl rfl

/-- C9: a skill whose manifest is missing or unparseable yields a
SkillResult with `isValid` false, no findings, risk score 0, classification
"low" and the fixed error message — and `ScanReport.from_results` counts
every result classified "low" toward `passed`, so such an invalid skill
increments `passed_count` exactly like a genuinely low-risk one. -/
theorem claim_c9_invalid_counted_passed (cfg : ThresholdsConfig)
    (l1 l2 l3 l4 : Skill → List Finding) (fn : String) (skill : Skill)
    (rs : List SkillResult) (h : skill.isValid = false) :
    scanSkillAll cfg l1 l2 l3 l4 fn skill =
      { name := fn, path := fn, isValid := false, riskScore := 0,
        classification := "low", findings := [], topFinding := none,
        error := some invalidSkillError, metadata := [] } ∧
    passedCount (scanSkillAll cfg l1 l2 l3 l4 fn skill :: rs) = passedCount rs + 1 := by
  have hr : scanSkillAll cfg l1 l2 l3 l4 fn skill =
      { name := fn, path := fn, isValid := false, riskScore := 0,
        classification := "low", findings := [], topFinding := none,
        error := some invalidSkillError, metadata := [] } := by
    simp [scanSkillAll, h]
  refine ⟨hr, ?_⟩
  rw [hr]
  simp [passedCount, List.filter_cons]

/-- Witness for C9 at the concrete invalid skill. -/
theorem claim_c9_witness :
    scanSkillAll demoCfg (fun _ => []) (fun _ => []) (fun _ => []) (fun _ => [])
        "broken" invalidSkill =
      { name := "broken", path := "broken", isValid := false, riskScore := 0,
        classification := "low", findings := [], topFinding := none,
        error := some invalidSkillError, metadata := [] } ∧
    passedCount (scanSkillAll demoCfg (fun _ => []) (fun _ => []) (fun _ => [])
        (fun _ => []) "broken" invalidSkill :: []) = passedCount [] + 1 :=
  claim_c9_invalid_counted_passed demoCfg (fun _ => []) (fun _ => []) (fun _ => [])
    (fun _ => []) "broken" invalidSkill [] rfl

/-- C10: the source-attribution case split of the Trust Ledger is not
exhaustive — a declared source that is nonempty, not "unknown", not "self"
and not http-prefixed falls through every branch and yields no finding at
all. -/
theorem claim_c10_source_gap (skill : Skill)
    (h1 : skill.source ≠ "unknown") (h2 : skill.source ≠ "")
    (h3 : skill.source ≠ "self") (h4 : pyStartsWith skill.source "http" = false) :
    verifySource skill = [] := by
  have e1 : (skill.source == "unknown") = false := by
    simpa using h1
  have e2 : (skill.source == "") = false := by
    simpa using h2
  have e3 : (skill.source == "self") = false := by
    simpa using h3
  simp [verifySource, e1, e2, e3, h4]

/-- Witness for C10 at a skill whose source is an ftp URL. -/
theorem claim_c10_witness : verifySource c10Skill = [] :=
  claim_c10_source_gap c10Skill (by decide) (by decide) (by decide) (by decide)

end SkillGuardrails
